import Mathlib

/-!
Formal model of the MARVIN backend (src/backend).

This file gives a shallow embedding of the MARVIN demo backend
(`src/backend/main.py` and the demo routers under `src/backend/api/`) and
proves/refutes the frozen specification claims about it.

Conventions of the embedding:
* Python `str` values are modelled as `List Char` (`Str` below).
* Python `bytes` values are modelled as `List Nat` (one `Nat` per byte).
* The filesystem is a partial map from path strings to byte contents.
* `ast.parse` (CPython's parser) is not reimplemented; the analyzer takes the
  parse outcome (`Except SynErr PyNode`) as an explicit argument.  Concrete
  theorems supply the concrete syntax tree that CPython's parser produces on
  the concrete input, spelled out in comments next to the tree.
* Machine integers do not occur in the Python source (Python ints are
  unbounded); SHA-256's 32-bit arithmetic is modelled with explicit `% 2^32`.
-/

set_option maxHeartbeats 1000000
set_option maxRecDepth 100000

namespace Marvin

/-- Python strings are modelled as lists of unicode characters. -/
abbrev Str := List Char

/-- The apostrophe character (U+0027), built by code point to keep source text plain. -/
def aposChar : Char := Char.ofNat 39

/-- The double-quote character (U+0022), built by code point to keep source text plain. -/
def dquoteChar : Char := Char.ofNat 34

/-- Characters on which Python `str.splitlines` splits:
`\n \r \v \f \x1c \x1d \x1e \x85    ` (and `\r\n` as a unit). -/
def isLineBreak (c : Char) : Bool :=
  c = '\n' || c = '\r' || c = Char.ofNat 11 || c = Char.ofNat 12 ||
  c = Char.ofNat 28 || c = Char.ofNat 29 || c = Char.ofNat 30 ||
  c = Char.ofNat 133 || c = Char.ofNat 8232 || c = Char.ofNat 8233

/-- Characters stripped by Python `str.strip()` / `str.rstrip()`
(the characters for which `str.isspace()` holds). -/
def pyIsSpace (c : Char) : Bool :=
  c = ' ' || c = '\t' || c = '\n' || c = Char.ofNat 11 || c = Char.ofNat 12 ||
  c = '\r' || c = Char.ofNat 28 || c = Char.ofNat 29 || c = Char.ofNat 30 ||
  c = Char.ofNat 31 || c = Char.ofNat 133 || c = Char.ofNat 160 ||
  c = Char.ofNat 5760 || (8192 ≤ c.toNat && c.toNat ≤ 8202) ||
  c = Char.ofNat 8232 || c = Char.ofNat 8233 || c = Char.ofNat 8239 ||
  c = Char.ofNat 8287 || c = Char.ofNat 12288

/-- Prepend a character to the first line of a line list (used by `pySplitlinesGo`).
The result is always nonempty. -/
def consHead (c : Char) : List Str → List Str
  | [] => [[c]]
  | l :: ls => (c :: l) :: ls

/-- Worker for `pySplitlines` on a nonempty string: the current line is open.
`\r\n` is consumed as a single break; a break at the very end of the string
does not open a new (empty) final line — exactly Python's `str.splitlines`. -/
def pySplitlinesGo : List Char → List Str
  | [] => [[]]
  | [c] => if isLineBreak c then [[]] else [[c]]
  | c1 :: c2 :: rest =>
      if c1 = '\r' && c2 = '\n' then
        match rest with
        | [] => [[]]
        | d :: rest2 => [] :: pySplitlinesGo (d :: rest2)
      else if isLineBreak c1 then
        [] :: pySplitlinesGo (c2 :: rest)
      else consHead c1 (pySplitlinesGo (c2 :: rest))

/-- Model of Python `str.splitlines()`:
`"".splitlines() = []`, `"a\n".splitlines() = ["a"]`,
`"a\n\n".splitlines() = ["a", ""]`, `"\r\n".splitlines() = [""]`. -/
def pySplitlines : Str → List Str
  | [] => []
  | c :: rest => pySplitlinesGo (c :: rest)

/-- Model of Python `str.rstrip()` (strip trailing whitespace). -/
def pyRstrip (l : Str) : Str := (l.reverse.dropWhile pyIsSpace).reverse

/-- Model of Python `str.strip()` (strip leading and trailing whitespace). -/
def pyStrip (l : Str) : Str := pyRstrip (l.dropWhile pyIsSpace)

/-- Model of Python `str.lower()` (sufficient for the ASCII data involved). -/
def pyLower (s : Str) : Str := s.map Char.toLower

/-- Whether a string contains a character (Python `c in s`). -/
def containsChar (s : Str) (c : Char) : Bool := s.any (fun d => d = c)

/-- Whether `pat` occurs as a contiguous substring of `s` (Python `pat in s`). -/
def containsSub (s pat : Str) : Bool :=
  (List.range (s.length + 1)).any (fun i => (s.drop i).take pat.length == pat)

/-- Whether `s` ends with `pat` (Python `s.endswith(pat)`). -/
def endsWith (s pat : Str) : Bool :=
  ((s.reverse.take pat.length).reverse == pat) && decide (pat.length ≤ s.length)

/-- Model of Python `"\n".join(lines)`. -/
def joinNL : List Str → Str
  | [] => []
  | [l] => l
  | l :: l' :: rest => l ++ '\n' :: joinNL (l' :: rest)

/-- Count occurrences of a character (Python `s.count(c)`). -/
def countChar (s : Str) (c : Char) : Nat := (s.filter (fun d => d = c)).length

/-- UTF-8 encoding of one character. -/
def utf8EncodeChar (c : Char) : List Nat :=
  let n := c.toNat
  if n < 128 then [n]
  else if n < 2048 then [192 + n / 64, 128 + n % 64]
  else if n < 65536 then [224 + n / 4096, 128 + (n / 64) % 64, 128 + n % 64]
  else [240 + n / 262144, 128 + (n / 4096) % 64, 128 + (n / 64) % 64, 128 + n % 64]

/-- UTF-8 encoding of a string (Python `s.encode("utf-8")`). -/
def utf8Encode (s : Str) : List Nat := (s.map utf8EncodeChar).flatten

/-! ## SHA-256 (model of `hashlib.sha256(b).hexdigest()`) -/

/-- Truncation to 32 bits. -/
def w32 (n : Nat) : Nat := n % 4294967296

/-- Right rotation of a 32-bit word. -/
def rotr32 (x n : Nat) : Nat := x / 2 ^ n + x % 2 ^ n * 2 ^ (32 - n)

/-- Bitwise complement of a 32-bit word. -/
def not32 (x : Nat) : Nat := 4294967295 - x

/-- The 64 SHA-256 round constants of FIPS 180-4, written in decimal. -/
def sha256k : List Nat :=
  [1116352408, 1899447441, 3049323471, 3921009573, 961987163, 1508970993,
   2453635748, 2870763221, 3624381080, 310598401, 607225278, 1426881987,
   1925078388, 2162078206, 2614888103, 3248222580, 3835390401, 4022224774,
   264347078, 604807628, 770255983, 1249150122, 1555081692, 1996064986,
   2554220882, 2821834349, 2952996808, 3210313671, 3336571891, 3584528711,
   113926993, 338241895, 666307205, 773529912, 1294757372, 1396182291,
   1695183700, 1986661051, 2177026350, 2456956037, 2730485921, 2820302411,
   3259730800, 3345764771, 3516065817, 3600352804, 4094571909, 275423344,
   430227734, 506948616, 659060556, 883997877, 958139571, 1322822218,
   1537002063, 1747873779, 1955562222, 2024104815, 2227730452, 2361852424,
   2428436474, 2756734187, 3204031479, 3329325298]

/-- The eight-word SHA-256 state. -/
structure H8 where
  a : Nat
  b : Nat
  c : Nat
  d : Nat
  e : Nat
  f : Nat
  g : Nat
  h : Nat

/-- The SHA-256 initial hash value of FIPS 180-4, written in decimal. -/
def sha256init : H8 :=
  { a := 1779033703, b := 3144134277, c := 1013904242, d := 2773480762,
    e := 1359893119, f := 2600822924, g := 528734635, h := 1541459225 }

/-- Schedule function sigma0. -/
def ssig0 (x : Nat) : Nat := (rotr32 x 7 ^^^ rotr32 x 18) ^^^ x / 2 ^ 3

/-- Schedule function sigma1. -/
def ssig1 (x : Nat) : Nat := (rotr32 x 17 ^^^ rotr32 x 19) ^^^ x / 2 ^ 10

/-- Compression function Sigma0. -/
def bsig0 (x : Nat) : Nat := (rotr32 x 2 ^^^ rotr32 x 13) ^^^ rotr32 x 22

/-- Compression function Sigma1. -/
def bsig1 (x : Nat) : Nat := (rotr32 x 6 ^^^ rotr32 x 11) ^^^ rotr32 x 25

/-- Choice function. -/
def chF (e f g : Nat) : Nat := (e &&& f) ^^^ (not32 e &&& g)

/-- Majority function. -/
def majF (a b c : Nat) : Nat := ((a &&& b) ^^^ (a &&& c)) ^^^ (b &&& c)

/-- Extend a 16-word block to the 64-word message schedule (48 fuel steps). -/
def extendSchedule : Nat → List Nat → List Nat
  | 0, ws => ws
  | n + 1, ws =>
      let m := ws.length
      let next := w32 (ssig1 (ws.getD (m - 2) 0) + ws.getD (m - 7) 0 +
                       ssig0 (ws.getD (m - 15) 0) + ws.getD (m - 16) 0)
      extendSchedule n (ws ++ [next])

/-- One SHA-256 compression round. -/
def sha256round (st : H8) (k w : Nat) : H8 :=
  let t1 := w32 (st.h + bsig1 st.e + chF st.e st.f st.g + k + w)
  let t2 := w32 (bsig0 st.a + majF st.a st.b st.c)
  { a := w32 (t1 + t2), b := st.a, c := st.b, d := st.c,
    e := w32 (st.d + t1), f := st.e, g := st.f, h := st.g }

/-- Compress one 16-word block into the state. -/
def sha256block (st : H8) (block : List Nat) : H8 :=
  let ws := extendSchedule 48 block
  let fin := (ws.zip sha256k).foldl (fun s p => sha256round s p.2 p.1) st
  { a := w32 (st.a + fin.a), b := w32 (st.b + fin.b), c := w32 (st.c + fin.c),
    d := w32 (st.d + fin.d), e := w32 (st.e + fin.e), f := w32 (st.f + fin.f),
    g := w32 (st.g + fin.g), h := w32 (st.h + fin.h) }

/-- Big-endian 8-byte encoding of a (< 2^64) number. -/
def be64 (n : Nat) : List Nat :=
  [n / 2 ^ 56 % 256, n / 2 ^ 48 % 256, n / 2 ^ 40 % 256, n / 2 ^ 32 % 256,
   n / 2 ^ 24 % 256, n / 2 ^ 16 % 256, n / 2 ^ 8 % 256, n % 256]

/-- SHA-256 message padding: append `0x80`, zeros to 56 mod 64, then the
bit length as 8 big-endian bytes. -/
def sha256pad (msg : List Nat) : List Nat :=
  let r := (msg.length + 1) % 64
  msg ++ [128] ++ List.replicate ((120 - r) % 64) 0 ++ be64 (msg.length * 8)

/-- Group bytes into big-endian 32-bit words (the input length is a multiple of 4). -/
def bytesToWords : List Nat → List Nat
  | b1 :: b2 :: b3 :: b4 :: rest =>
      (b1 * 16777216 + b2 * 65536 + b3 * 256 + b4) :: bytesToWords rest
  | _ => []

/-- Split a padded byte string into 64-byte blocks (structural worker). -/
def splitBlocksAux : List Nat → List Nat → Nat → List (List Nat)
  | [], cur, _ => if cur.isEmpty then [] else [cur.reverse]
  | b :: rest, cur, n =>
      if n = 63 then (b :: cur).reverse :: splitBlocksAux rest [] 0
      else splitBlocksAux rest (b :: cur) (n + 1)

/-- The eight 32-bit words of the SHA-256 digest of a byte string. -/
def sha256words (msg : List Nat) : List Nat :=
  let blocks := splitBlocksAux (sha256pad msg) [] 0
  let st := blocks.foldl (fun s blk => sha256block s (bytesToWords blk)) sha256init
  [st.a, st.b, st.c, st.d, st.e, st.f, st.g, st.h]

/-- A hexadecimal digit character. -/
def hexDigit (n : Nat) : Char := "0123456789abcdef".toList.getD n '0'

/-- Eight lowercase hex digits of a 32-bit word. -/
def toHex8 (n : Nat) : Str :=
  (List.range 8).map (fun i => hexDigit (n / 16 ^ (7 - i) % 16))

/-- Model of `hashlib.sha256(b).hexdigest()` (used by `sha256_bytes` in
`src/backend/main.py`). -/
def sha256hex (msg : List Nat) : Str := ((sha256words msg).map toHex8).flatten

/-! ## Python syntax trees

`analyze_python` in `src/backend/main.py` inspects the tree produced by
`ast.parse` only through `isinstance` tests against the node kinds below and
through the fields `name`, `lineno` and the docstring of function definitions.
Every other node kind (`Expr`, `Call`, `Name`, `Constant`, `arguments`,
`Pass`, `Assign`, ...) is represented by the catch-all constructor `other`,
which carries its child nodes.  `exceptHandler` records whether the clause is
a bare `except:` (`type=None` in the CPython tree); a typed clause carries its
type expression among its children as an `other` node. -/

mutual
inductive PyNode where
  | module (body : PyNodeList)
  | functionDef (name : Str) (lineno : Nat) (docstring : Option Str) (body : PyNodeList)
  | classDef (name : Str) (lineno : Nat) (docstring : Option Str) (body : PyNodeList)
  | ifStmt (body : PyNodeList)
  | forStmt (body : PyNodeList)
  | whileStmt (body : PyNodeList)
  | tryStmt (body : PyNodeList)
  | withStmt (body : PyNodeList)
  | boolOp (body : PyNodeList)
  | andOp
  | orOp
  | exceptHandler (isBare : Bool) (body : PyNodeList)
  | other (body : PyNodeList)
inductive PyNodeList where
  | nil
  | cons (head : PyNode) (tail : PyNodeList)
end

/-- Build a `PyNodeList` from an ordinary list (notation helper for trees). -/
def nlist : List PyNode → PyNodeList
  | [] => .nil
  | n :: rest => .cons n (nlist rest)

/- Model of `ast.walk(tree)`: all descendant nodes including the node itself.
CPython documents the order as unspecified ("in no specified order"); the
model yields them in preorder. -/
mutual
/-- Model of `ast.walk` from one node. -/
def walkNode : PyNode → List PyNode
  | .module b => .module b :: walkList b
  | .functionDef nm ln doc b => .functionDef nm ln doc b :: walkList b
  | .classDef nm ln doc b => .classDef nm ln doc b :: walkList b
  | .ifStmt b => .ifStmt b :: walkList b
  | .forStmt b => .forStmt b :: walkList b
  | .whileStmt b => .whileStmt b :: walkList b
  | .tryStmt b => .tryStmt b :: walkList b
  | .withStmt b => .withStmt b :: walkList b
  | .boolOp b => .boolOp b :: walkList b
  | .andOp => [.andOp]
  | .orOp => [.orOp]
  | .exceptHandler bare b => .exceptHandler bare b :: walkList b
  | .other b => .other b :: walkList b
/-- Model of `ast.walk` over a child list. -/
def walkList : PyNodeList → List PyNode
  | .nil => []
  | .cons n rest => walkNode n ++ walkList rest
end

/-- `isinstance(n, ast.FunctionDef)`. -/
def isFunctionDef : PyNode → Bool
  | .functionDef _ _ _ _ => true
  | _ => false

/-- `isinstance(n, ast.ClassDef)`. -/
def isClassDef : PyNode → Bool
  | .classDef _ _ _ _ => true
  | _ => false

/-- `isinstance(node, (ast.If, ast.For, ast.While, ast.And, ast.Or, ast.Try,
ast.With, ast.BoolOp))` — the complexity heuristic's node kinds. -/
def isComplexityNode : PyNode → Bool
  | .ifStmt _ => true
  | .forStmt _ => true
  | .whileStmt _ => true
  | .andOp => true
  | .orOp => true
  | .tryStmt _ => true
  | .withStmt _ => true
  | .boolOp _ => true
  | _ => false

/- Structural count of the nodes satisfying `p` in a whole tree
(independent reference count used to state claims about `walkNode`). -/
mutual
/-- Count of the nodes satisfying `p` in the tree rooted at a node. -/
def countNode (p : PyNode → Bool) : PyNode → Nat
  | .module b => (if p (.module b) then 1 else 0) + countList p b
  | .functionDef nm ln doc b =>
      (if p (.functionDef nm ln doc b) then 1 else 0) + countList p b
  | .classDef nm ln doc b =>
      (if p (.classDef nm ln doc b) then 1 else 0) + countList p b
  | .ifStmt b => (if p (.ifStmt b) then 1 else 0) + countList p b
  | .forStmt b => (if p (.forStmt b) then 1 else 0) + countList p b
  | .whileStmt b => (if p (.whileStmt b) then 1 else 0) + countList p b
  | .tryStmt b => (if p (.tryStmt b) then 1 else 0) + countList p b
  | .withStmt b => (if p (.withStmt b) then 1 else 0) + countList p b
  | .boolOp b => (if p (.boolOp b) then 1 else 0) + countList p b
  | .andOp => if p .andOp then 1 else 0
  | .orOp => if p .orOp then 1 else 0
  | .exceptHandler bare b =>
      (if p (.exceptHandler bare b) then 1 else 0) + countList p b
  | .other b => (if p (.other b) then 1 else 0) + countList p b
/-- Count of the nodes satisfying `p` in a child list. -/
def countList (p : PyNode → Bool) : PyNodeList → Nat
  | .nil => 0
  | .cons n rest => countNode p n + countList p rest
end

/-- Whether a tree contains a bare `except:` clause anywhere. -/
def hasBareExcept (t : PyNode) : Bool :=
  (walkNode t).any (fun n =>
    match n with
    | .exceptHandler bare _ => bare
    | _ => false)

/-- Names of the function definitions that are direct children of a node list. -/
def directFunctionNames : PyNodeList → List Str
  | .nil => []
  | .cons (.functionDef nm _ _ _) rest => nm :: directFunctionNames rest
  | .cons _ rest => directFunctionNames rest

/-- Modelled from the spec: "the list of top-level function ... names" — the
function definitions that are immediate children of the module (nested
definitions excluded).  Used to compare against what the code computes. -/
def specTopLevelFunctionNames : PyNode → List Str
  | .module b => directFunctionNames b
  | _ => []

/-! ## The analyzer (`analyze_python` in `src/backend/main.py`) -/

/-- A syntax error as caught from `ast.parse`: `str(e)` and `e.lineno`. -/
structure SynErr where
  msg : Str
  lineno : Option Nat
deriving DecidableEq, Repr

/-- One entry of the analyzer's issue list.  The Python issues are
heterogeneous dicts; `lineno` is present on docstring and syntax issues,
`lines` only on the long-line issue (empty otherwise). -/
structure Issue where
  type : Str
  message : Str
  lineno : Option Nat := none
  lines : List Nat := []
  severity : Str
deriving DecidableEq, Repr

/-- The analyzer's metrics dict.  `functions`, `classes` and
`estimated_cyclomatic_complexity` are only set when parsing succeeded;
`avg_line_length` is only set by the Python analyzer (not the generic
fallback of the analyze endpoint). -/
structure Metrics where
  total_lines : Nat
  code_lines : Nat
  blank_lines : Nat
  avg_line_length : Option Rat
  functions : Option Nat := none
  classes : Option Nat := none
  estimated_cyclomatic_complexity : Option Nat := none
deriving DecidableEq, Repr

/-- The analyzer's report. -/
structure AnalysisReport where
  language : Str
  quality_score : Int
  issues : List Issue
  metrics : Metrics
deriving DecidableEq, Repr

/-- Decimal digits of a number, as characters. -/
def natStr (n : Nat) : Str := (Nat.repr n).toList

/-- `{"type": "syntax", "message": str(e), "lineno": e.lineno, "severity": "high"}`. -/
def synIssueOf (e : SynErr) : Issue :=
  { type := "syntax".toList, message := e.msg, lineno := e.lineno,
    severity := "high".toList }

/-- The missing-docstring issue for function `name` at line `ln`. -/
def docstringIssue (name : Str) (ln : Nat) : Issue :=
  { type := "style".toList,
    message := "Function ".toList ++ [aposChar] ++ name ++ [aposChar] ++
               " is missing a docstring".toList,
    lineno := some ln,
    severity := "low".toList }

/-- The long-line issue for the 1-based line numbers `ls`. -/
def longLineIssue (ls : List Nat) : Issue :=
  { type := "style".toList,
    message := "Found ".toList ++ natStr ls.length ++
               " lines longer than 120 characters".toList,
    lines := ls,
    severity := "low".toList }

/-- `ast.get_docstring(f) in (None, "")`. -/
def docMissing : Option Str → Bool
  | none => true
  | some s => s.isEmpty

/-- The check run for each walked function definition: a missing or empty
docstring yields the style issue. -/
def docCheck : PyNode → Option Issue
  | .functionDef nm ln doc _ =>
      if docMissing doc then some (docstringIssue nm ln) else none
  | _ => none

/-- Model of `analyze_python(code)` (src/backend/main.py lines 104-163).
`parsed` is the outcome of `ast.parse(code)`. -/
def analyze_python (code : Str) (parsed : Except SynErr PyNode) : AnalysisReport :=
  let lines := pySplitlines code
  let non_empty := lines.filter (fun l => !(pyStrip l).isEmpty)
  let avg : Rat :=
    if lines.length = 0 then 0
    else (((lines.map List.length).sum : Nat) : Rat) / ((lines.length : Nat) : Rat)
  let base : Metrics :=
    { total_lines := lines.length, code_lines := non_empty.length,
      blank_lines := lines.length - non_empty.length,
      avg_line_length := some avg }
  let step : List Issue × Metrics :=
    match parsed with
    | .ok tree =>
        let nodes := walkNode tree
        let func_defs := nodes.filter isFunctionDef
        let class_defs := nodes.filter isClassDef
        let doc_issues := func_defs.filterMap docCheck
        let complexity := 1 + (nodes.filter isComplexityNode).length
        (doc_issues,
         { base with functions := some func_defs.length,
                     classes := some class_defs.length,
                     estimated_cyclomatic_complexity := some complexity })
    | .error e => ([synIssueOf e], base)
  let long_lines :=
    lines.enum.filterMap (fun p => if 120 < p.2.length then some (p.1 + 1) else none)
  let issues := step.1 ++ (if long_lines.isEmpty then [] else [longLineIssue long_lines])
  let metrics := step.2
  let quality : Int :=
    max 0 (100 - (issues.length : Int) * 3 -
           max 0 ((metrics.estimated_cyclomatic_complexity.getD 0 : Int) - 10))
  { language := "python".toList, quality_score := quality,
    issues := issues, metrics := metrics }

/-! ## The optimizer (`naive_optimize_python` in `src/backend/main.py`) -/

/-- The optimizer's report dict. -/
structure OptimizeReport where
  improvements_made : Nat
  changes : List Str
  before_size : Nat
  after_size : Nat
  reduction_percent : Rat
deriving DecidableEq, Repr

/-- The optimizer's result: new text plus report. -/
structure OptimizeResult where
  optimized_code : Str
  report : OptimizeReport
deriving DecidableEq, Repr

/-- The quote normalization: every `"` becomes an apostrophe. -/
def qrep (c : Char) : Char := if c = dquoteChar then aposChar else c

/-- Model of `naive_optimize_python(code)` (src/backend/main.py lines 166-192). -/
def naive_optimize_python (code : Str) : OptimizeResult :=
  let before := code
  let optimized1 := joinNL ((pySplitlines code).map pyRstrip)
  let changes1 : List Str :=
    if optimized1 = before then [] else ["Removed trailing whitespace".toList]
  let triA : Str := [aposChar, aposChar, aposChar]
  let triQ : Str := [dquoteChar, dquoteChar, dquoteChar]
  let step2 : Str × List Str :=
    if containsChar optimized1 dquoteChar && !containsSub optimized1 triA &&
       !containsSub optimized1 triQ then
      let maybe := optimized1.map qrep
      if maybe = optimized1 then (optimized1, changes1)
      else (maybe, changes1 ++ ["Normalized quotes to single quotes".toList])
    else (optimized1, changes1)
  { optimized_code := step2.1,
    report := { improvements_made := step2.2.length, changes := step2.2,
                before_size := code.length, after_size := step2.1.length,
                -- The Python source computes
                -- round((1 - len(optimized) / len(code), 4)[1] * 100 if len(code) else 0, 2):
                -- the conditional selects tuple element 1 (the literal 4) times 100
                -- whenever the input is nonempty, so the value is 400.0, else 0.
                reduction_percent := if code.length = 0 then 0 else 400 } }

/-! ## Storage (`safe_write_file` and the directories in `src/backend/main.py`)

The filesystem is a partial map from path strings to byte contents; a
request-handling step threads it explicitly.  `st_mtime` is modelled by a
`now` argument. -/

/-- The filesystem state. -/
def FS := Str → Option (List Nat)

/-- The empty filesystem. -/
def fsEmpty : FS := fun _ => none

/-- Write a file (creating or overwriting it). -/
def fsWrite (fs : FS) (p : Str) (b : List Nat) : FS :=
  fun q => if q = p then some b else fs q

/-- Remove a file. -/
def fsRemove (fs : FS) (p : Str) : FS :=
  fun q => if q = p then none else fs q

/-- The metadata dict returned by `safe_write_file`. -/
structure WriteInfo where
  path : Str
  size : Nat
  modified : Nat
  sha256 : Str
deriving DecidableEq, Repr

/-- `path.with_suffix(path.suffix + ".tmp")`: appends `.tmp` after the
existing suffix, i.e. the path plus `.tmp`. -/
def tmpPathOf (p : Str) : Str := p ++ ".tmp".toList

/-- `FILES_DIR` (relative to the storage base). -/
def filesDir : Str := "files".toList

/-- `ANALYSIS_DIR` (relative to the storage base). -/
def analysisDir : Str := "analysis".toList

/-- Path join `dir / name`. -/
def joinPath (d name : Str) : Str := d ++ '/' :: name

/-- Model of `safe_write_file(path, content)` (src/backend/main.py lines
87-101): write to `path + ".tmp"`, flush and fsync (no-ops in the model),
`os.replace` the temp file onto `path`, then `stat` the result. -/
def safe_write_file (fs : FS) (now : Nat) (path : Str) (content : List Nat) :
    FS × WriteInfo :=
  let tmp := tmpPathOf path
  let fs1 := fsWrite fs tmp content
  let fs2 := fsWrite (fsRemove fs1 tmp) path content
  let size := ((fs2 path).getD []).length
  (fs2, { path := path, size := size, modified := now, sha256 := sha256hex content })

/-! ## Languages and filenames -/

/-- `ALLOWED_EXTS`, in source order. -/
def allowedExts : List (Str × Str) :=
  [("py".toList, "python".toList), ("js".toList, "javascript".toList),
   ("ts".toList, "typescript".toList), ("tsx".toList, "tsx".toList),
   ("jsx".toList, "jsx".toList), ("cpp".toList, "c++".toList),
   ("c".toList, "c".toList), ("java".toList, "java".toList),
   ("html".toList, "html".toList), ("css".toList, "css".toList),
   ("json".toList, "json".toList), ("md".toList, "markdown".toList)]

/-- `ALLOWED_EXTS.get(e)`. -/
def lookupExt (e : Str) : Option Str :=
  (allowedExts.find? (fun p => p.1 == e)).map (fun p => p.2)

/-- Index of the last `.` in a string, if any. -/
def lastDotIdx (name : Str) : Option Nat :=
  match name.reverse.findIdx? (fun c => c = '.') with
  | none => none
  | some j => some (name.length - 1 - j)

/-- `name.split(".")[-1]`. -/
def afterLastDot (name : Str) : Str :=
  match lastDotIdx name with
  | none => name
  | some i => name.drop (i + 1)

/-- `Path(name).stem`: the name without its final extension (an extension
requires a dot that is neither leading nor trailing). -/
def pathStem (name : Str) : Str :=
  match lastDotIdx name with
  | none => name
  | some i => if 0 < i ∧ i + 1 < name.length then name.take i else name

/-- `Path(name).suffix`: the final extension including its dot, or empty. -/
def pathExt (name : Str) : Str :=
  match lastDotIdx name with
  | none => []
  | some i => if 0 < i ∧ i + 1 < name.length then name.drop i else []

/-- `s.lstrip(".")`. -/
def dropLeadingDots (s : Str) : Str := s.dropWhile (fun c => c = '.')

/-- Model of `detect_language_from_name(name)` (src/backend/main.py lines
78-80). -/
def detect_language_from_name (name : Str) : Str :=
  let ext := if containsChar name '.' then pyLower (afterLastDot name) else []
  match lookupExt ext with
  | some lang => lang
  | none => if ext.isEmpty then "plain".toList else ext

/-! ## Request validation and endpoint results

Pydantic validates request bodies before a handler runs: a missing required
field produces a 422 validation error.  A raw request models each field as
present-or-missing; `Resp` is a handler outcome (`validationError` for the
pydantic 422, `httpError` for a raised `HTTPException`, `ok` for a success
payload). -/

/-- Outcome of an endpoint call. -/
inductive Resp (α : Type) where
  | validationError (detail : Str)
  | httpError (status : Nat) (detail : Str)
  | ok (a : α)
deriving DecidableEq, Repr

/-- Whether an outcome is a success response. -/
def Resp.isSuccess {α : Type} : Resp α → Bool
  | .ok _ => true
  | _ => false

/-- Whether an outcome is a pydantic validation error (a 4xx). -/
def Resp.isValidationError {α : Type} : Resp α → Bool
  | .validationError _ => true
  | _ => false

/-- Whether an outcome is any error (validation or HTTPException). -/
def Resp.isError {α : Type} : Resp α → Bool
  | .ok _ => false
  | _ => true

/-! ## The create endpoint (src/backend/main.py lines 53-64 and 216-235) -/

/-- A raw `/create` body: each field present or missing. -/
structure RawCreateRequest where
  filename : Option Str
  content : Option Str
  language : Option Str

/-- A validated `CreateFileRequest`. -/
structure CreateFileRequest where
  filename : Str
  content : Str
  language : Option Str

/-- The `validate_filename` pydantic validator (src/backend/main.py lines
58-64). -/
def validate_filename (v : Str) : Except Str Str :=
  if containsChar v '/' || containsSub v "..".toList then
    .error "Invalid filename".toList
  else if !(allowedExts.any (fun p => endsWith v ('.' :: p.1))) then
    .error "Unsupported file extension".toList
  else .ok v

/-- Pydantic validation of a raw `/create` body (required fields in
declaration order, then the filename validator). -/
def validateCreateRequest (raw : RawCreateRequest) : Except Str CreateFileRequest :=
  match raw.filename with
  | none => .error "field required: filename".toList
  | some f =>
      match raw.content with
      | none => .error "field required: content".toList
      | some c =>
          match validate_filename f with
          | .error e => .error e
          | .ok f' => .ok { filename := f', content := c, language := raw.language }

/-- The success payload of `/create`. -/
structure CreateData where
  filename : Str
  language : Str
  info : WriteInfo
deriving DecidableEq, Repr

/-- Model of the `/create` handler `create_file` (src/backend/main.py lines
216-235), including the pydantic validation that precedes it. -/
def create_file (fs : FS) (now : Nat) (raw : RawCreateRequest) :
    FS × Resp CreateData :=
  match validateCreateRequest raw with
  | .error e => (fs, .validationError e)
  | .ok req =>
      let language :=
        match req.language with
        | some l => if l.isEmpty then detect_language_from_name req.filename else l
        | none => detect_language_from_name req.filename
      let target := joinPath filesDir req.filename
      let wr := safe_write_file fs now target (utf8Encode req.content)
      (wr.1, .ok { filename := req.filename, language := language, info := wr.2 })

/-! ## The upload endpoint (src/backend/main.py lines 238-268) -/

/-- An uploaded multipart file. -/
structure UploadFileIn where
  filename : Option Str
  content : List Nat
  content_type : Option Str

/-- The success payload of `/upload`. -/
structure UploadData where
  original_filename : Str
  stored_filename : Str
  language : Str
  info : WriteInfo
  content_type : Option Str
deriving DecidableEq, Repr

/-- Model of the `/upload` handler `upload_file` (src/backend/main.py lines
238-268): reject a missing filename or disallowed extension with 400, store
under a content-derived name `stem.digest12.ext`. -/
def upload_file (fs : FS) (now : Nat) (file : UploadFileIn) :
    FS × Resp UploadData :=
  let bad : FS × Resp UploadData :=
    (fs, .httpError 400 "Unsupported or missing file extension".toList)
  match file.filename with
  | none => bad
  | some filename =>
      if filename.isEmpty ||
         !(allowedExts.any (fun p => endsWith filename ('.' :: p.1))) then bad
      else
        let content := file.content
        let language := detect_language_from_name filename
        let digest := (sha256hex content).take 12
        let safe_name := pathStem filename ++ '.' :: digest ++
                         '.' :: dropLeadingDots (pathExt filename)
        let target := joinPath filesDir safe_name
        let wr := safe_write_file fs now target content
        (wr.1, .ok { original_filename := filename, stored_filename := safe_name,
                     language := language, info := wr.2,
                     content_type := file.content_type })

/-! ## The analyze and optimize endpoints (src/backend/main.py lines 271-334) -/

/-- A raw `CodeRequest` body.  `filename` distinguishes a missing field
(defaulted by pydantic to `"untitled"`) from an explicit null. -/
structure RawCodeRequest where
  code : Option Str
  language : Option Str
  filename : Option (Option Str)

/-- A validated `CodeRequest`. -/
structure CodeRequest where
  code : Str
  language : Option Str
  filename : Option Str

/-- Pydantic validation of a raw `CodeRequest`: `code` is required,
`language` defaults to null, `filename` defaults to `"untitled"`. -/
def validateCodeRequest (raw : RawCodeRequest) : Except Str CodeRequest :=
  match raw.code with
  | none => .error "field required: code".toList
  | some c =>
      .ok { code := c, language := raw.language,
            filename := raw.filename.getD (some "untitled".toList) }

/-- Python `x or ""` on an `Optional[str]`. -/
def orBlank : Option Str → Str
  | none => []
  | some s => s

/-- Python `request.filename or "snippet"`. -/
def orSnippet : Option Str → Str
  | none => "snippet".toList
  | some f => if f.isEmpty then "snippet".toList else f

/-- `(request.language or detect_language_from_name(request.filename or "")).lower()`:
an absent or empty language falls back to filename-based detection. -/
def chooseLanguage (req : CodeRequest) : Str :=
  pyLower (match req.language with
           | some l =>
               if l.isEmpty then detect_language_from_name (orBlank req.filename) else l
           | none => detect_language_from_name (orBlank req.filename))

/-- `language in ("python", "py", "")`. -/
def isPyLang (l : Str) : Bool := l == "python".toList || l == "py".toList || l.isEmpty

/-- The generic (non-Python) analysis fallback of the analyze endpoint
(src/backend/main.py lines 280-292). -/
def generic_analysis (language : Str) (code : Str) : AnalysisReport :=
  let lines := pySplitlines code
  let non_empty := lines.filter (fun l => !(pyStrip l).isEmpty)
  { language := if language.isEmpty then "plain".toList else language,
    quality_score := if 0 < code.length then 80 else 0,
    issues := [],
    metrics := { total_lines := lines.length, code_lines := non_empty.length,
                 blank_lines := lines.length - non_empty.length,
                 avg_line_length := none } }

/-- Stand-in for `json.dumps(analysis, indent=2).encode("utf-8")`.  Only the
analyze endpoint's persisted report uses it and no claim inspects those
bytes, so the rendering is a simplified (not byte-exact) serialization. -/
def reportBytes (a : AnalysisReport) : List Nat :=
  utf8Encode (a.language ++ '|' :: natStr a.issues.length ++
              '|' :: natStr a.metrics.total_lines)

/-- The success payload of `/analyze`. -/
structure AnalyzeData where
  filename : Option Str
  language : Str
  analysis : AnalysisReport
deriving DecidableEq, Repr

/-- Model of the `/analyze` handler `analyze_code` (src/backend/main.py lines
271-309), including the pydantic validation that precedes it.  `parsed` is
the outcome of `ast.parse(request.code)`. -/
def analyze_code (fs : FS) (now : Nat) (raw : RawCodeRequest)
    (parsed : Except SynErr PyNode) : FS × Resp AnalyzeData :=
  match validateCodeRequest raw with
  | .error e => (fs, .validationError e)
  | .ok req =>
      let language := chooseLanguage req
      let code := req.code
      let analysis :=
        if isPyLang language then analyze_python code parsed
        else generic_analysis language code
      let out_name :=
        ((orSnippet req.filename).map (fun c => if c = '/' then '_' else c)) ++
        ".analysis.json".toList
      let wr := safe_write_file fs now (joinPath analysisDir out_name) (reportBytes analysis)
      (wr.1, .ok { filename := req.filename, language := analysis.language,
                   analysis := analysis })

/-- The success payload of `/optimize`. -/
structure OptimizeData where
  filename : Option Str
  language : Str
  optimized_code : Str
  report : OptimizeReport
deriving DecidableEq, Repr

/-- Model of the `/optimize` handler `optimize_code` (src/backend/main.py
lines 312-334), including the pydantic validation that precedes it. -/
def optimize_code (raw : RawCodeRequest) : Resp OptimizeData :=
  match validateCodeRequest raw with
  | .error e => .validationError e
  | .ok req =>
      let language := chooseLanguage req
      let code := req.code
      let result :=
        if isPyLang language then naive_optimize_python code
        else { optimized_code := code,
               report := { improvements_made := 0, changes := [],
                           before_size := code.length, after_size := code.length,
                           reduction_percent := 0 } }
      .ok { filename := req.filename,
            language := if language.isEmpty then "plain".toList else language,
            optimized_code := result.optimized_code, report := result.report }

/-! ## The demo routers (src/backend/api/) -/

/-- Model of the `/analyze` demo router handler (src/backend/api/analyze.py):
empty code is rejected with 400, otherwise the line count is returned. -/
def api_analyze_code (code : Str) (language : Str) : Resp (Str × Nat) :=
  if code.isEmpty then .httpError 400 "code is required".toList
  else .ok (language, countChar code '\n' + 1)

/-- Model of the `/create` demo router handler (src/backend/api/create.py). -/
def api_create_file (filename : Str) (content : Str) : Resp (Str × Nat) :=
  if filename.isEmpty then .httpError 400 "filename is required".toList
  else .ok (filename, content.length)

/-- Model of the `/optimize` demo router handler (src/backend/api/optimize.py). -/
def api_optimize_code (code : Str) (language : Str) : Resp (Str × Bool) :=
  if code.isEmpty then .httpError 400 "code is required".toList
  else .ok (language, true)

/-- Model of the `/upload` demo router handler (src/backend/api/upload.py):
a missing or empty filename is rejected with 400. -/
def api_upload_file (filename : Option Str) (size : Nat) : Resp (Str × Nat) :=
  match filename with
  | none => .httpError 400 "file is required".toList
  | some f => if f.isEmpty then .httpError 400 "file is required".toList
              else .ok (f, size)

/-! ## Concrete inputs used by the claims

Each concrete syntax tree below is the tree CPython's `ast.parse` produces on
the paired source text, with node kinds the analyzer does not distinguish
rendered as `other`. -/

/-- The spec example input, the string `def f():` newline four spaces
`print(` apostrophe `x` apostrophe `)` newline. -/
def c1code : Str :=
  "def f():\n    print(".toList ++ [aposChar, 'x', aposChar] ++ ")\n".toList

/-- `ast.parse(c1code)`:
`Module([FunctionDef(name="f", lineno=1, args=arguments(), body=[Expr(Call(Name("print"), [Constant("x")]))])])`;
`arguments` is the first `other` child, `Expr(Call(Name, Constant))` the second. -/
def c1tree : PyNode :=
  .module (nlist [.functionDef "f".toList 1 none (nlist
    [.other (nlist []),
     .other (nlist [.other (nlist [.other (nlist []), .other (nlist [])])])])])

/-- A one-line input that is both unparsable and longer than 120 characters:
`def f(:` followed by 120 spaces. -/
def c3code : Str := "def f(:".toList ++ List.replicate 120 ' '

/-- The error `ast.parse(c3code)` raises: invalid syntax at line 1. -/
def c3err : SynErr :=
  { msg := "invalid syntax (<unknown>, line 1)".toList, lineno := some 1 }

/-- The source `try:` / `pass` / bare `except:` / `pass`. -/
def c4code : Str := "try:\n    pass\nexcept:\n    pass\n".toList

/-- `ast.parse(c4code)`:
`Module([Try(body=[Pass], handlers=[ExceptHandler(type=None, body=[Pass])])])`;
the `Pass` nodes are `other` children and the handler is bare. -/
def c4tree : PyNode :=
  .module (nlist [.tryStmt (nlist
    [.other (nlist []), .exceptHandler true (nlist [.other (nlist [])])])])

/-! ## Claim C1 -/

/-- C1 (counterexample): analyzing the spec's example input as Python does
report one function and zero classes, but its single issue has kind "style"
(missing docstring) at line 1 — no issue of kind "debug_code" exists, and no
issue is located at line 2, contradicting the claim. -/
theorem C1_counterexample :
    (analyze_python c1code (.ok c1tree)).metrics.functions = some 1 ∧
    (analyze_python c1code (.ok c1tree)).metrics.classes = some 0 ∧
    (analyze_python c1code (.ok c1tree)).issues.length = 1 ∧
    ((analyze_python c1code (.ok c1tree)).issues.filter
        (fun i => i.type == "debug_code".toList)).length = 0 ∧
    (analyze_python c1code (.ok c1tree)).issues.map Issue.lineno = [some 1] := by
  decide

/-- C1 (amended): analyzing the input `def f():` / indented `print(...)` as
Python yields a report with exactly one function, zero classes, and exactly
one issue, of kind "style" (the missing docstring for `f`), at line 1. -/
theorem C1_amended :
    (analyze_python c1code (.ok c1tree)).metrics.functions = some 1 ∧
    (analyze_python c1code (.ok c1tree)).metrics.classes = some 0 ∧
    (analyze_python c1code (.ok c1tree)).issues = [docstringIssue "f".toList 1] := by
  decide

/-! ## Claim C3 -/

/-- C3 (counterexample): on an input that does not parse, the report is not
"a single structural error and nothing else": for `c3code` (unparsable and
over 120 characters long) the report still carries the line-count metrics
(`total_lines = 1`) and a second, long-line style issue besides the syntax
error. -/
theorem C3_counterexample :
    (analyze_python c3code (.error c3err)).metrics.total_lines = 1 ∧
    (analyze_python c3code (.error c3err)).metrics.code_lines = 1 ∧
    (analyze_python c3code (.error c3err)).issues.length = 2 := by
  decide

/-- C3 (amended): when parsing fails, the structural summary (function count,
class count, complexity) is omitted and the issue list starts with a syntax
issue carrying `str(e)` and the failing line number; the line-count metrics
are still computed, and a long-line style issue may still follow. -/
theorem C3_amended (code : Str) (e : SynErr) :
    (analyze_python code (.error e)).issues.head? = some (synIssueOf e) ∧
    (analyze_python code (.error e)).metrics.functions = none ∧
    (analyze_python code (.error e)).metrics.classes = none ∧
    (analyze_python code (.error e)).metrics.estimated_cyclomatic_complexity = none ∧
    (analyze_python code (.error e)).metrics.total_lines = (pySplitlines code).length := by
  unfold analyze_python
  simp

/-! ## Claim C4 -/

/-- C4 (counterexample): a source consisting of a bare `except:` clause is
not flagged: its issue list is empty. -/
theorem C4_counterexample :
    hasBareExcept c4tree = true ∧
    (analyze_python c4code (.ok c4tree)).issues = [] := by
  decide

/-- The docstring check only ever emits issues of kind "style". -/
lemma docCheck_type (n : PyNode) (i : Issue) (h : docCheck n = some i) :
    i.type = "style".toList := by
  cases n
  case functionDef nm ln doc b =>
    simp only [docCheck] at h
    split at h
    · injection h with h2
      subst h2
      rfl
    · cases h
  all_goals simp [docCheck] at h

/-- C4 (amended): the analyzer performs no except-clause inspection at all:
on any parsed source every reported issue has kind "style" (missing
docstring or long lines) — in particular neither bare nor typed except
clauses ever produce an issue. -/
theorem C4_amended (code : Str) (tree : PyNode) :
    ((analyze_python code (.ok tree)).issues.all
        (fun i => i.type == "style".toList)) = true := by
  simp only [analyze_python, List.all_append, Bool.and_eq_true, List.all_eq_true]
  constructor
  · intro i hi
    rcases List.mem_filterMap.mp hi with ⟨n, -, hn⟩
    have ht := docCheck_type n i hn
    simp [ht]
  · intro i hi
    split at hi <;> simp_all [longLineIssue]

/-! ## Claim C2 -/

/-- Length of a filtered cons in terms of an indicator. -/
lemma filter_cons_length (p : PyNode → Bool) (x : PyNode) (l : List PyNode) :
    ((x :: l).filter p).length = (if p x then 1 else 0) + (l.filter p).length := by
  rw [List.filter_cons]
  split <;> simp [Nat.add_comm]

mutual
/-- Filtering the walk of a node counts exactly the matching nodes of its tree. -/
theorem walkNode_filter_length (p : PyNode → Bool) :
    (n : PyNode) → ((walkNode n).filter p).length = countNode p n
  | .module b => by
      simp [walkNode, countNode, filter_cons_length, walkList_filter_length p b]
  | .functionDef nm ln doc b => by
      simp [walkNode, countNode, filter_cons_length, walkList_filter_length p b]
  | .classDef nm ln doc b => by
      simp [walkNode, countNode, filter_cons_length, walkList_filter_length p b]
  | .ifStmt b => by
      simp [walkNode, countNode, filter_cons_length, walkList_filter_length p b]
  | .forStmt b => by
      simp [walkNode, countNode, filter_cons_length, walkList_filter_length p b]
  | .whileStmt b => by
      simp [walkNode, countNode, filter_cons_length, walkList_filter_length p b]
  | .tryStmt b => by
      simp [walkNode, countNode, filter_cons_length, walkList_filter_length p b]
  | .withStmt b => by
      simp [walkNode, countNode, filter_cons_length, walkList_filter_length p b]
  | .boolOp b => by
      simp [walkNode, countNode, filter_cons_length, walkList_filter_length p b]
  | .andOp => by
      simp [walkNode, countNode, List.filter]
      split <;> simp_all
  | .orOp => by
      simp [walkNode, countNode, List.filter]
      split <;> simp_all
  | .exceptHandler bare b => by
      simp [walkNode, countNode, filter_cons_length, walkList_filter_length p b]
  | .other b => by
      simp [walkNode, countNode, filter_cons_length, walkList_filter_length p b]
/-- Filtering the walk of a child list counts exactly the matching nodes. -/
theorem walkList_filter_length (p : PyNode → Bool) :
    (l : PyNodeList) → ((walkList l).filter p).length = countList p l
  | .nil => by simp [walkList, countList]
  | .cons n rest => by
      simp [walkList, countList, List.filter_append,
            walkNode_filter_length p n, walkList_filter_length p rest]
end

/-- The source `def f():` / nested `def g():` / `pass`. -/
def c2code : Str := "def f():\n    def g():\n        pass\n".toList

/-- `ast.parse(c2code)`:
`Module([FunctionDef(name="f", lineno=1, args=arguments(), body=[FunctionDef(name="g", lineno=2, args=arguments(), body=[Pass])])])`;
the `arguments` and `Pass` nodes are `other`. -/
def c2tree : PyNode :=
  .module (nlist [.functionDef "f".toList 1 none (nlist
    [.other (nlist []),
     .functionDef "g".toList 2 none (nlist [.other (nlist []), .other (nlist [])])])])

/-- C2 (counterexample): for a source with one top-level and one nested
function definition, the report stores the count 2 (it uses `ast.walk`, which
visits nested definitions too), while the top-level definitions are exactly
`[f]` — and the report stores only counts, never name lists.  This
contradicts "the lists equal exactly the top-level definitions". -/
theorem C2_counterexample :
    (analyze_python c2code (.ok c2tree)).metrics.functions = some 2 ∧
    specTopLevelFunctionNames c2tree = ["f".toList] := by
  decide

/-- C2 (amended): on any parsed source the report's metrics carry the counts
(not the names) of all function and all class definitions occurring anywhere
in the syntax tree, nested definitions included. -/
theorem C2_amended (code : Str) (tree : PyNode) :
    (analyze_python code (.ok tree)).metrics.functions =
      some (countNode isFunctionDef tree) ∧
    (analyze_python code (.ok tree)).metrics.classes =
      some (countNode isClassDef tree) := by
  simp only [analyze_python]
  exact ⟨by simp [walkNode_filter_length], by simp [walkNode_filter_length]⟩

/-! ## Claim C10 -/

/-- C10: for every input and parse outcome, the Python analyzer's metrics
satisfy `total_lines = code_lines + blank_lines`, and the quality score lies
between 0 and 100. -/
theorem C10_invariants (code : Str) (parsed : Except SynErr PyNode) :
    (analyze_python code parsed).metrics.total_lines =
      (analyze_python code parsed).metrics.code_lines +
        (analyze_python code parsed).metrics.blank_lines ∧
    0 ≤ (analyze_python code parsed).quality_score ∧
    (analyze_python code parsed).quality_score ≤ 100 := by
  have hf := List.length_filter_le (fun l => !(pyStrip l).isEmpty) (pySplitlines code)
  cases parsed with
  | ok tree =>
      unfold analyze_python
      simp only []
      refine ⟨by omega, ?_, ?_⟩ <;> omega
  | error e =>
      unfold analyze_python
      simp only []
      refine ⟨by omega, ?_, ?_⟩ <;> omega

/-! ## Claim C8 -/

/-- The temp path (the path plus `.tmp`) differs from the target path. -/
lemma tmpPathOf_ne (p : Str) : tmpPathOf p ≠ p := by
  intro h
  have hl := congrArg List.length h
  simp [tmpPathOf] at hl

/-- C8: a call to the storage writer leaves exactly the given bytes at the
target path, removes the temp file again, and returns metadata whose `size`
is the byte count and whose `sha256` is the SHA-256 hex digest of the bytes. -/
theorem C8_safe_write (fs : FS) (now : Nat) (path : Str) (content : List Nat) :
    (safe_write_file fs now path content).1 path = some content ∧
    (safe_write_file fs now path content).1 (tmpPathOf path) = none ∧
    (safe_write_file fs now path content).2.size = content.length ∧
    (safe_write_file fs now path content).2.sha256 = sha256hex content := by
  refine ⟨?_, ?_, ?_, rfl⟩
  · simp [safe_write_file, fsWrite, fsRemove]
  · simp [safe_write_file, fsWrite, fsRemove, tmpPathOf_ne path]
  · simp [safe_write_file, fsWrite, fsRemove]

/-! ## Claim C9 -/

/-- C9: a create request whose filename contains a `/` or the substring `..`
is rejected by the filename validator: the endpoint returns a validation
error and the filesystem is unchanged (nothing is written anywhere). -/
theorem C9_no_traversal (fs : FS) (now : Nat) (raw : RawCreateRequest) (f : Str)
    (hf : raw.filename = some f)
    (hbad : containsChar f '/' = true ∨ containsSub f "..".toList = true) :
    ((create_file fs now raw).2).isValidationError = true ∧
    (create_file fs now raw).1 = fs := by
  have hor : (containsChar f '/' || containsSub f "..".toList) = true := by
    rcases hbad with h | h
    · rw [h, Bool.true_or]
    · rw [h, Bool.or_true]
  have hv : validate_filename f = .error "Invalid filename".toList := by
    unfold validate_filename
    rw [hor]
    rfl
  unfold create_file validateCreateRequest
  rw [hf]
  cases raw.content <;> simp [hv, Resp.isValidationError]

/-- A concrete traversal attempt: filename `../a.py`. -/
def c9raw : RawCreateRequest :=
  { filename := some "../a.py".toList, content := some [], language := none }

/-- Witness for C9 at the concrete request `c9raw`. -/
theorem C9_witness :
    ((create_file fsEmpty 0 c9raw).2).isValidationError = true ∧
    (create_file fsEmpty 0 c9raw).1 = fsEmpty :=
  C9_no_traversal fsEmpty 0 c9raw "../a.py".toList rfl (Or.inr (by decide))

/-! ## Claim C5 -/

/-- `ast.parse("") = Module(body=[])`. -/
def emptyModule : PyNode := .module (nlist [])

/-- A `CodeRequest` body (as consumed by both the main analyze and the main
optimize endpoint) whose required `code` field is present but empty. -/
def c5raw : RawCodeRequest :=
  { code := some [], language := some "python".toList, filename := none }

/-- C5 (counterexample): a request whose required `code` field is the empty
string is not rejected by the main endpoints: both the analyze endpoint (it
analyzes the empty program) and the optimize endpoint (it optimizes the
empty program) return a success response. -/
theorem C5_counterexample :
    ((analyze_code fsEmpty 0 c5raw (.ok emptyModule)).2).isSuccess = true ∧
    (optimize_code c5raw).isSuccess = true := by
  decide

/-- C5 (amended): a request with a *missing* required field always yields a
validation error (shown for the main analyze, optimize and create
endpoints), and the demo routers under `api/` reject an *empty* required
string with a 400 error; but the main analyze and optimize endpoints accept
an empty `code` string and return success (final two conjuncts, at the
concrete empty-code request `c5raw`). -/
theorem C5_amended :
    (∀ (fs : FS) (now : Nat) (raw : RawCodeRequest) (parsed : Except SynErr PyNode),
        raw.code = none →
        ((analyze_code fs now raw parsed).2).isValidationError = true) ∧
    (∀ (raw : RawCodeRequest), raw.code = none →
        (optimize_code raw).isValidationError = true) ∧
    (∀ (fs : FS) (now : Nat) (raw : RawCreateRequest),
        raw.filename = none ∨ raw.content = none →
        ((create_file fs now raw).2).isValidationError = true) ∧
    (∀ (l : Str), (api_analyze_code [] l).isError = true) ∧
    (∀ (c : Str), (api_create_file [] c).isError = true) ∧
    (∀ (l : Str), (api_optimize_code [] l).isError = true) ∧
    (∀ (n : Nat), (api_upload_file (some []) n).isError = true) ∧
    ((analyze_code fsEmpty 0 c5raw (.ok emptyModule)).2).isSuccess = true ∧
    (optimize_code c5raw).isSuccess = true := by
  refine ⟨?_, ?_, ?_, ?_, ?_, ?_, ?_, ?_, ?_⟩
  · intro fs now raw parsed h
    unfold analyze_code validateCodeRequest
    rw [h]
    rfl
  · intro raw h
    unfold optimize_code validateCodeRequest
    rw [h]
    rfl
  · intro fs now raw h
    unfold create_file validateCreateRequest
    rcases h with h | h
    · rw [h]
      rfl
    · rw [h]
      cases hf : raw.filename <;> rfl
  · intro l
    rfl
  · intro c
    rfl
  · intro l
    rfl
  · intro n
    rfl
  · decide
  · decide

/-- Witness for C5 (amended) at concrete requests with a missing `code`,
a missing `filename`, and an empty api-router `code`. -/
theorem C5_witness :
    ((analyze_code fsEmpty 0 { code := none, language := none, filename := none }
        (.ok emptyModule)).2).isValidationError = true ∧
    ((create_file fsEmpty 0
        { filename := none, content := none, language := none }).2).isValidationError = true ∧
    (api_analyze_code [] "python".toList).isError = true :=
  ⟨C5_amended.1 fsEmpty 0 _ (.ok emptyModule) rfl,
   C5_amended.2.2.1 fsEmpty 0 _ (Or.inl rfl),
   C5_amended.2.2.2.1 "python".toList⟩


/-! ## Claim C6 -/

/-- `consHead` never returns the empty line list. -/
lemma consHead_ne_nil (c : Char) (ls : List Str) : consHead c ls ≠ [] := by
  cases ls <;> simp [consHead]

/-- `consHead` keeps the number of lines of a nonempty line list. -/
lemma length_consHead (c : Char) (ls : List Str) (h : ls ≠ []) :
    (consHead c ls).length = ls.length := by
  cases ls with
  | nil => exact absurd rfl h
  | cons l t => simp [consHead]

/-- Prepending a non-break character extends the first line. -/
lemma go_cons_nonbreak (c : Char) (cs : List Char) (h : isLineBreak c = false) :
    pySplitlinesGo (c :: cs) = consHead c (pySplitlinesGo cs) := by
  have hcr : c ≠ '\r' := by
    intro h2
    subst h2
    simp [isLineBreak] at h
  cases cs with
  | nil => rw [pySplitlinesGo.eq_2, if_neg (by simp [h])]; rfl
  | cons d rest =>
      have hp : (decide (c = '\r') && decide (d = '\n')) = false := by simp [hcr]
      cases rest with
      | nil => rw [pySplitlinesGo.eq_3, hp]; simp [h]
      | cons e rest2 => rw [pySplitlinesGo.eq_4, hp]; simp [h]

/-- Prepending a break character (not starting a `\r\n` pair) opens a line. -/
lemma go_cons_break (c d : Char) (cs : List Char)
    (hb : isLineBreak c = true)
    (hp : (decide (c = '\r') && decide (d = '\n')) = false) :
    pySplitlinesGo (c :: d :: cs) = [] :: pySplitlinesGo (d :: cs) := by
  cases cs with
  | nil => rw [pySplitlinesGo.eq_3, hp]; simp [hb]
  | cons e cs2 => rw [pySplitlinesGo.eq_4, hp]; simp [hb]

/-- A `\r\n` pair before a nonempty remainder opens a line. -/
lemma go_crlf (d : Char) (cs : List Char) :
    pySplitlinesGo ('\r' :: '\n' :: d :: cs) = [] :: pySplitlinesGo (d :: cs) := by
  rw [pySplitlinesGo.eq_4]
  simp

/-- The splitter worker never returns the empty line list. -/
lemma go_ne_nil (cs : List Char) : pySplitlinesGo cs ≠ [] := by
  induction cs using pySplitlinesGo.induct with
  | case1 => simp [pySplitlinesGo]
  | case2 c h => simp [pySplitlinesGo.eq_2, h]
  | case3 c h => simp [pySplitlinesGo.eq_2, h]
  | case4 c1 c2 h => rw [pySplitlinesGo.eq_3, if_pos h]; simp
  | case5 c1 c2 h d rest2 ih => rw [pySplitlinesGo.eq_4, if_pos h]; simp
  | case6 c1 c2 rest h hb ih =>
      have hp : (decide (c1 = '\r') && decide (c2 = '\n')) = false := by
        by_cases h1 : c1 = '\r' <;> by_cases h2 : c2 = '\n' <;> simp_all
      rw [go_cons_break c1 c2 rest (by simpa using hb) hp]
      simp
  | case7 c1 c2 rest h hb ih =>
      rw [go_cons_nonbreak c1 (c2 :: rest) (by simpa using hb)]
      exact consHead_ne_nil _ _

/-- Prepending a break-free prefix folds `consHead` over it. -/
lemma go_append (l cs : List Char) (hl : ∀ c ∈ l, isLineBreak c = false) :
    pySplitlinesGo (l ++ cs) = l.foldr consHead (pySplitlinesGo cs) := by
  induction l with
  | nil => rfl
  | cons c l ih =>
      have hc : isLineBreak c = false := hl c (by simp)
      have hrest : ∀ d ∈ l, isLineBreak d = false := fun d hd => hl d (by simp [hd])
      rw [List.cons_append, go_cons_nonbreak c (l ++ cs) hc, ih hrest]
      rfl

/-- Folding `consHead` keeps the line list nonempty. -/
lemma foldr_consHead_ne_nil (l : List Char) (ls : List Str) (h : ls ≠ []) :
    l.foldr consHead ls ≠ [] := by
  cases l with
  | nil => exact h
  | cons c l => exact consHead_ne_nil c _

/-- Folding `consHead` keeps the number of lines of a nonempty line list. -/
lemma length_foldr_consHead (l : List Char) (ls : List Str) (h : ls ≠ []) :
    (l.foldr consHead ls).length = ls.length := by
  induction l with
  | nil => rfl
  | cons c l ih =>
      rw [List.foldr_cons, length_consHead c _ (foldr_consHead_ne_nil l ls h), ih]

/-- On a nonempty string `pySplitlines` is the worker. -/
lemma pySplitlines_eq_go (cs : List Char) (h : cs ≠ []) :
    pySplitlines cs = pySplitlinesGo cs := by
  cases cs with
  | nil => exact absurd rfl h
  | cons c rest => rfl

/-- `consHead` of a non-break character preserves break-freeness of lines. -/
lemma consHead_breakFree (c : Char) (ls : List Str) (hc : isLineBreak c = false)
    (h : ∀ l ∈ ls, ∀ d ∈ l, isLineBreak d = false) :
    ∀ l ∈ consHead c ls, ∀ d ∈ l, isLineBreak d = false := by
  cases ls with
  | nil =>
      intro l hl d hd
      simp [consHead] at hl
      subst hl
      simp at hd
      subst hd
      exact hc
  | cons l0 t =>
      intro l hl d hd
      simp only [consHead, List.mem_cons] at hl
      rcases hl with rfl | hl
      · rcases List.mem_cons.mp hd with rfl | hd2
        · exact hc
        · exact h l0 (by simp) d hd2
      · exact h l (by simp [hl]) d hd

/-- Every line produced by the splitter is free of break characters. -/
lemma go_breakFree (cs : List Char) :
    ∀ l ∈ pySplitlinesGo cs, ∀ c ∈ l, isLineBreak c = false := by
  induction cs using pySplitlinesGo.induct with
  | case1 => simp [pySplitlinesGo]
  | case2 c h => simp [pySplitlinesGo.eq_2, h]
  | case3 c h =>
      intro l hl d hd
      rw [pySplitlinesGo.eq_2, if_neg h] at hl
      simp at hl
      subst hl
      simp at hd
      subst hd
      simpa using h
  | case4 c1 c2 h =>
      rw [pySplitlinesGo.eq_3, if_pos h]
      simp
  | case5 c1 c2 h d rest2 ih =>
      intro l hl e he
      rw [pySplitlinesGo.eq_4, if_pos h] at hl
      rcases List.mem_cons.mp hl with rfl | hl2
      · simp at he
      · exact ih l hl2 e he
  | case6 c1 c2 rest h hb ih =>
      intro l hl e he
      have hp : (decide (c1 = '\r') && decide (c2 = '\n')) = false := by
        by_cases h1 : c1 = '\r' <;> by_cases h2 : c2 = '\n' <;> simp_all
      rw [go_cons_break c1 c2 rest (by simpa using hb) hp] at hl
      rcases List.mem_cons.mp hl with rfl | hl2
      · simp at he
      · exact ih l hl2 e he
  | case7 c1 c2 rest h hb ih =>
      rw [go_cons_nonbreak c1 (c2 :: rest) (by simpa using hb)]
      exact consHead_breakFree c1 _ (by simpa using hb) ih

/-- Every line of `pySplitlines` is free of break characters. -/
lemma pySplitlines_breakFree (cs : List Char) :
    ∀ l ∈ pySplitlines cs, ∀ c ∈ l, isLineBreak c = false := by
  cases cs with
  | nil => simp [pySplitlines]
  | cons c rest => exact go_breakFree (c :: rest)

/-- Joining break-free lines with newlines and re-splitting yields at most as
many lines as were joined. -/
lemma splitlines_joinNL_le (lines : List Str)
    (h : ∀ l ∈ lines, ∀ c ∈ l, isLineBreak c = false) :
    (pySplitlines (joinNL lines)).length ≤ lines.length := by
  induction lines with
  | nil => simp [joinNL, pySplitlines]
  | cons l rest ih =>
      cases rest with
      | nil =>
          cases l with
          | nil => simp [joinNL, pySplitlines]
          | cons c cs =>
              have hbf : ∀ d ∈ c :: cs, isLineBreak d = false :=
                fun d hd => h _ (by simp) d hd
              have h1 : joinNL [c :: cs] = c :: cs := rfl
              rw [h1, pySplitlines_eq_go _ (by simp)]
              have h2 : pySplitlinesGo (c :: cs) =
                  (c :: cs).foldr consHead (pySplitlinesGo []) := by
                have h3 := go_append (c :: cs) [] hbf
                simpa using h3
              rw [h2, length_foldr_consHead _ _ (by simp [pySplitlinesGo])]
              simp [pySplitlinesGo]
      | cons l2 rest2 =>
          have hbf : ∀ d ∈ l, isLineBreak d = false := fun d hd => h l (by simp) d hd
          have hR : ∀ l' ∈ l2 :: rest2, ∀ c ∈ l', isLineBreak c = false :=
            fun l' hl' => h l' (by simp [hl'])
          have hjoin : joinNL (l :: l2 :: rest2) = l ++ '\n' :: joinNL (l2 :: rest2) := rfl
          have hne : l ++ '\n' :: joinNL (l2 :: rest2) ≠ [] := by cases l <;> simp
          rw [hjoin, pySplitlines_eq_go _ hne, go_append l _ hbf,
              length_foldr_consHead _ _ (go_ne_nil _)]
          cases hR0 : joinNL (l2 :: rest2) with
          | nil =>
              have hone : pySplitlinesGo ['\n'] = [[]] := by decide
              simp [hone]
          | cons r rs =>
              have hcr : (decide (('\n' : Char) = '\r')) = false := by decide
              have hp : (decide (('\n' : Char) = '\r') && decide (r = '\n')) = false := by
                rw [hcr]
                exact Bool.false_and _
              rw [go_cons_break '\n' r rs (by decide) hp]
              have ihx := ih hR
              rw [pySplitlines_eq_go _ (by simp [hR0]), hR0] at ihx
              simp only [List.length_cons] at ihx ⊢
              omega

/-- `qrep` does not change whether a character is a line break. -/
lemma qrep_break (c : Char) : isLineBreak (qrep c) = isLineBreak c := by
  by_cases h : c = dquoteChar
  · subst h
    decide
  · simp [qrep, h]

/-- `qrep` maps exactly carriage return to carriage return. -/
lemma qrep_cr (c : Char) : qrep c = '\r' ↔ c = '\r' := by
  by_cases h : c = dquoteChar
  · subst h
    constructor <;> intro h2 <;> exact absurd h2 (by decide)
  · simp [qrep, h]

/-- `qrep` maps exactly newline to newline. -/
lemma qrep_nl (c : Char) : qrep c = '\n' ↔ c = '\n' := by
  by_cases h : c = dquoteChar
  · subst h
    constructor <;> intro h2 <;> exact absurd h2 (by decide)
  · simp [qrep, h]

/-- Quote replacement does not change the number of lines (worker level). -/
lemma go_map_qrep (cs : List Char) :
    (pySplitlinesGo (cs.map qrep)).length = (pySplitlinesGo cs).length := by
  induction cs using pySplitlinesGo.induct with
  | case1 => rfl
  | case2 c h => simp [pySplitlinesGo.eq_2, qrep_break, h]
  | case3 c h => simp [pySplitlinesGo.eq_2, qrep_break, h]
  | case4 c1 c2 h =>
      simp only [Bool.and_eq_true, decide_eq_true_eq] at h
      obtain ⟨rfl, rfl⟩ := h
      decide
  | case5 c1 c2 h d rest2 ih =>
      simp only [Bool.and_eq_true, decide_eq_true_eq] at h
      obtain ⟨rfl, rfl⟩ := h
      have hq : qrep '\r' = '\r' := by decide
      have hq2 : qrep '\n' = '\n' := by decide
      simp only [List.map_cons, hq, hq2]
      rw [go_crlf, go_crlf]
      simp only [List.length_cons]
      have ih2 : (pySplitlinesGo (qrep d :: List.map qrep rest2)).length =
          (pySplitlinesGo (d :: rest2)).length := by simpa using ih
      omega
  | case6 c1 c2 rest h hb ih =>
      have hb2 : isLineBreak c1 = true := by simpa using hb
      have hp0 : (decide (c1 = '\r') && decide (c2 = '\n')) = false := by
        by_cases h1 : c1 = '\r' <;> by_cases h2 : c2 = '\n' <;> simp_all
      have hp : (decide (qrep c1 = '\r') && decide (qrep c2 = '\n')) = false := by
        by_cases h1 : c1 = '\r' <;> by_cases h2 : c2 = '\n' <;>
          simp_all [qrep_cr, qrep_nl]
      have hqb : isLineBreak (qrep c1) = true := by rw [qrep_break]; exact hb2
      simp only [List.map_cons]
      rw [go_cons_break _ _ _ hqb hp, go_cons_break _ _ _ hb2 hp0]
      simp only [List.length_cons]
      have ih2 : (pySplitlinesGo (qrep c2 :: List.map qrep rest)).length =
          (pySplitlinesGo (c2 :: rest)).length := by simpa using ih
      omega
  | case7 c1 c2 rest h hb ih =>
      have hb2 : isLineBreak c1 = false := by simpa using hb
      have hq : isLineBreak (qrep c1) = false := by rw [qrep_break]; exact hb2
      simp only [List.map_cons]
      rw [go_cons_nonbreak (qrep c1) _ hq, go_cons_nonbreak c1 _ hb2]
      rw [length_consHead _ _ (go_ne_nil _), length_consHead _ _ (go_ne_nil _)]
      simpa using ih

/-- Quote replacement does not change the number of lines. -/
lemma splitlines_map_qrep_length (s : Str) :
    (pySplitlines (s.map qrep)).length = (pySplitlines s).length := by
  cases s with
  | nil => rfl
  | cons c rest => exact go_map_qrep (c :: rest)

/-- Characters of a right-stripped line come from the line. -/
lemma mem_of_mem_pyRstrip {c : Char} {l : Str} (h : c ∈ pyRstrip l) : c ∈ l := by
  unfold pyRstrip at h
  rw [List.mem_reverse] at h
  have h2 := (List.dropWhile_sublist (l := l.reverse) (p := pyIsSpace)).subset h
  exact List.mem_reverse.mp h2

/-- C6: for every input, the optimize operation returns a text with at most
as many lines as the input (its transformations are per-line whitespace
stripping and a character substitution that never adds a line break). -/
theorem C6_line_count (code : Str) :
    (pySplitlines (naive_optimize_python code).optimized_code).length ≤
      (pySplitlines code).length := by
  have hb : ∀ l ∈ (pySplitlines code).map pyRstrip, ∀ c ∈ l, isLineBreak c = false := by
    intro l hl c hc
    rcases List.mem_map.mp hl with ⟨l0, hl0, rfl⟩
    exact pySplitlines_breakFree code l0 hl0 c (mem_of_mem_pyRstrip hc)
  have key : (pySplitlines (joinNL ((pySplitlines code).map pyRstrip))).length ≤
      (pySplitlines code).length := by
    have h1 := splitlines_joinNL_le _ hb
    simpa using h1
  unfold naive_optimize_python
  simp only []
  split
  · split
    · exact key
    · rw [splitlines_map_qrep_length]
      exact key
  · exact key


/-! ## Claim C7 -/

/-- The uploaded file of the round-trip experiment: `a.py` containing
`x = 1` newline (bytes [120, 32, 61, 32, 49, 10]). -/
def c7file : UploadFileIn :=
  { filename := some "a.py".toList, content := [120, 32, 61, 32, 49, 10],
    content_type := some "text/x-python".toList }

/-- `ast.parse("x = 1\n")`:
`Module([Assign(targets=[Name("x")], value=Constant(1))])`; the `Assign` and
its children are `other` nodes. -/
def c7tree : PyNode :=
  .module (nlist [.other (nlist [.other (nlist []), .other (nlist [])])])

/-- The stored identifier returned by an upload response. -/
def respStoredName : Resp UploadData → Str
  | .ok d => d.stored_filename
  | _ => []

/-- The analysis report carried by an analyze response. -/
def respAnalysis : Resp AnalyzeData → Option AnalysisReport
  | .ok d => some d.analysis
  | _ => none

/-- C7 (counterexample): upload `a.py` (content `x = 1` newline), then call
the analyze endpoint passing the returned stored identifier as the filename:
the endpoint does not retrieve the stored content — it analyzes the request's
(empty) `code` field, so the resulting report (0 lines) differs from the
report for the raw content analyzed directly (1 line). -/
theorem C7_counterexample :
    ((respAnalysis ((analyze_code ((upload_file fsEmpty 0 c7file).1) 1
        { code := some [], language := none,
          filename := some (some (respStoredName ((upload_file fsEmpty 0 c7file).2))) }
        (.ok emptyModule)).2)).map (fun a => a.metrics.total_lines)) = some 0 ∧
    ((respAnalysis ((analyze_code fsEmpty 0
        { code := some "x = 1\n".toList, language := some "python".toList,
          filename := none }
        (.ok c7tree)).2)).map (fun a => a.metrics.total_lines)) = some 1 := by
  decide

/-- C7 (amended): the analyze endpoint reads no stored files: its response
after an upload is identical to its response without the upload, so a
round-trip holds only for the raw content carried in the request itself;
the stored identifier passed as `filename` influences language detection
alone, not the analyzed text. -/
theorem C7_amended (fs : FS) (now now2 : Nat) (file : UploadFileIn)
    (raw : RawCodeRequest) (parsed : Except SynErr PyNode) :
    (analyze_code ((upload_file fs now file).1) now2 raw parsed).2 =
    (analyze_code fs now2 raw parsed).2 := by
  unfold analyze_code
  cases validateCodeRequest raw <;> rfl

end Marvin
